import Mathlib

/-!
Verification of the Pauth OAuth 2.0 client library (therealutkarshpriyadarshi/Pauth).

Shallow embedding of the core data model and flow-engine operations:
  * src/models/tokens.py        — TokenResponse / UserInfo value types
  * src/client/oauth2_client.py — blocking OAuth2Client
  * src/async_client/async_oauth2_client.py — AsyncOAuth2Client
  * src/storage/file.py         — FileTokenStorage
  * src/providers/{apple,linkedin,discord,microsoft}.py — provider descriptors

Python dynamic values are embedded as `PyVal`; dictionaries as association
lists; the network transport is an explicit oracle argument (`Option Dict`:
`none` models a transport failure / absent result, `some d` a parsed JSON
body, with Python truthiness `some [] = falsy`).  Randomness
(`secrets.token_urlsafe`) is passed in as explicit fresh-value arguments.
The files `providers/base.py`, `exceptions.py`, `providers/google.py` (and
github/facebook/twitter), `storage/memory.py` and `utils/request.py` are
not in the source tree; where their behaviour decides a property it is
modelled from the specification and marked as such in the doc comment.
-/

namespace Pauth

/-- Embedding of the Python values that appear in the token / user-info
dictionaries handled by the library (JSON-shaped data). -/
inductive PyVal where
  | pnone
  | pstr (s : String)
  | pint (z : Int)
  | pbool (b : Bool)
  deriving DecidableEq, Repr

/-- A Python `dict` with string keys, as an association list (first match
wins on lookup, mirroring key uniqueness in the dict literals the library
builds). -/
abbrev Dict := List (String × PyVal)

/-- `d.get(k)` returning `None` (here `Option.none`) when absent. -/
def dictGet (d : Dict) (k : String) : Option PyVal :=
  (d.find? (fun kv => kv.1 == k)).map (fun kv => kv.2)

/-- `data.get(k, default)` coerced to a string: the library only ever reads
string-shaped entries here, so non-string values fall to the default. -/
def pyStrOr (o : Option PyVal) (dflt : String) : String :=
  match o with
  | some (.pstr s) => s
  | _ => dflt

/-- `data.get(k)` read as an optional string (well-shaped fragment). -/
def pyOptStr (o : Option PyVal) : Option String :=
  match o with
  | some (.pstr s) => some s
  | _ => none

/-- `data.get(k)` read as an optional integer (well-shaped fragment). -/
def pyOptInt (o : Option PyVal) : Option Int :=
  match o with
  | some (.pint z) => some z
  | _ => none

/-- `data.get(k)` read as an optional boolean (well-shaped fragment). -/
def pyOptBool (o : Option PyVal) : Option Bool :=
  match o with
  | some (.pbool b) => some b
  | _ => none

/-- Encode an optional string field for `to_dict` (Python `None` ↦ `pnone`). -/
def optStrVal (o : Option String) : PyVal :=
  match o with
  | some s => .pstr s
  | none => .pnone

/-- Encode an optional integer field for `to_dict`. -/
def optIntVal (o : Option Int) : PyVal :=
  match o with
  | some z => .pint z
  | none => .pnone

/-- `TokenResponse` (src/models/tokens.py).  Timestamps are abstracted as
integers (`issued_at`, seconds); `datetime.utcnow()` at construction is
passed in explicitly where the code calls it. -/
structure TokenResponse where
  access_token : String
  token_type : String := "Bearer"
  expires_in : Option Int := none
  refresh_token : Option String := none
  scope : Option String := none
  id_token : Option String := none
  raw_response : Dict := []
  issued_at : Int := 0
  deriving DecidableEq, Repr

/-- `TokenResponse.expires_at`: `issued_at + expires_in` when present. -/
def TokenResponse.expires_at (t : TokenResponse) : Option Int :=
  match t.expires_in with
  | some e => some (t.issued_at + e)
  | none => none

/-- `TokenResponse.is_expired` at wall-clock time `now`. -/
def TokenResponse.is_expired (t : TokenResponse) (now : Int) : Bool :=
  match t.expires_at with
  | none => false
  | some e => decide (e ≤ now)

/-- `TokenResponse.scopes`: the scope string split on whitespace. -/
def TokenResponse.scopesList (t : TokenResponse) : List String :=
  match t.scope with
  | some s => if s.isEmpty then [] else s.splitOn " "
  | none => []

/-- `datetime.isoformat` on the abstract integer timestamps: rendered as the
decimal timestamp (an injective textual form; no claim inspects it). -/
def isoformat (z : Int) : String := toString z

/-- `TokenResponse.to_dict` (src/models/tokens.py lines 71-86). -/
def TokenResponse.to_dict (t : TokenResponse) : Dict :=
  [("access_token", .pstr t.access_token),
   ("token_type", .pstr t.token_type),
   ("expires_in", optIntVal t.expires_in),
   ("refresh_token", optStrVal t.refresh_token),
   ("scope", optStrVal t.scope),
   ("id_token", optStrVal t.id_token),
   ("expires_at", match t.expires_at with
                  | some e => .pstr (isoformat e)
                  | none => .pnone)]

/-- `TokenResponse.from_dict` (src/models/tokens.py lines 88-107).
`issued_at` defaults to `datetime.utcnow()`, passed here as `now`. -/
def TokenResponse.from_dict (now : Int) (data : Dict) : TokenResponse :=
  { access_token := pyStrOr (dictGet data "access_token") ""
    token_type := pyStrOr (dictGet data "token_type") "Bearer"
    expires_in := pyOptInt (dictGet data "expires_in")
    refresh_token := pyOptStr (dictGet data "refresh_token")
    scope := pyOptStr (dictGet data "scope")
    id_token := pyOptStr (dictGet data "id_token")
    raw_response := data
    issued_at := now }

/-- `UserInfo` (src/models/tokens.py lines 110-135). -/
structure UserInfo where
  id : String
  email : Option String := none
  name : Option String := none
  given_name : Option String := none
  family_name : Option String := none
  picture : Option String := none
  locale : Option String := none
  verified_email : Option Bool := none
  raw_data : Dict := []
  deriving DecidableEq, Repr

/-- `UserInfo.from_dict` (src/models/tokens.py lines 155-176):
`id` falls back from provider field to OIDC `sub`, `verified_email`
from `verified_email` to `email_verified`. -/
def UserInfo.from_dict (data : Dict) : UserInfo :=
  { id := match dictGet data "id" with
          | some v => pyStrOr (some v) ""
          | none => pyStrOr (dictGet data "sub") ""
    email := pyOptStr (dictGet data "email")
    name := pyOptStr (dictGet data "name")
    given_name := pyOptStr (dictGet data "given_name")
    family_name := pyOptStr (dictGet data "family_name")
    picture := pyOptStr (dictGet data "picture")
    locale := pyOptStr (dictGet data "locale")
    verified_email := match dictGet data "verified_email" with
                      | some v => pyOptBool (some v)
                      | none => pyOptBool (dictGet data "email_verified")
    raw_data := data }

/-! ## File-backed token storage (src/storage/file.py) -/

/-- The character filter used by `FileTokenStorage._get_token_path`:
`c.isalnum() or c in ('_', '-')`.  (`Char.isAlphanum` covers the ASCII
fragment of Python's Unicode `isalnum`.) -/
def keepChar (c : Char) : Bool :=
  c.isAlphanum || c == '_' || c == '-'

/-- Sanitization of a `user_id` (src/storage/file.py line 58). -/
def sanitize_user_id (uid : String) : String :=
  String.mk (uid.data.filter keepChar)

/-- Filename for a user's token file (src/storage/file.py line 59);
the fixed storage directory is left implicit. -/
def tokenFileName (uid : String) : String :=
  sanitize_user_id uid ++ ".json"

/-- The storage directory as a mapping from file names to (parsed) JSON
contents.  Corruption of a stored file is outside the claims verified
here, so contents are kept in parsed `Dict` form. -/
abbrev FileSystem := List (String × Dict)

/-- Look up a file by name (first match wins). -/
def fsLookup (fs : FileSystem) (name : String) : Option Dict :=
  (fs.find? (fun kv => kv.1 == name)).map (fun kv => kv.2)

/-- Writing a file: the new content shadows any previous one. -/
def fsInsert (fs : FileSystem) (name : String) (d : Dict) : FileSystem :=
  (name, d) :: fs

/-- `Path.unlink`: every entry under the name disappears. -/
def fsRemove (fs : FileSystem) (name : String) : FileSystem :=
  fs.filter (fun kv => !(kv.1 == name))

/-- `FileTokenStorage.save_token` (src/storage/file.py lines 61-83):
serializes with `to_dict` and writes to the sanitized path. -/
def save_token (fs : FileSystem) (uid : String) (t : TokenResponse) :
    FileSystem :=
  fsInsert fs (tokenFileName uid) t.to_dict

/-- `FileTokenStorage.get_token` (src/storage/file.py lines 85-112):
absent file yields `none`, otherwise the JSON is parsed with `from_dict`
(`now` models `datetime.utcnow()` at parse time). -/
def get_token (fs : FileSystem) (uid : String) (now : Int) :
    Option TokenResponse :=
  (fsLookup fs (tokenFileName uid)).map (TokenResponse.from_dict now)

/-- `FileTokenStorage.delete_token` (src/storage/file.py lines 114-137):
returns whether a record existed, together with the new directory state. -/
def delete_token (fs : FileSystem) (uid : String) : Bool × FileSystem :=
  match fsLookup fs (tokenFileName uid) with
  | none => (false, fs)
  | some _ => (true, fsRemove fs (tokenFileName uid))

/-! ## Error taxonomy (src/exceptions.py is absent from the tree; the kinds
below are the ones raised by the code under src/ plus the provider-level
`OAuthError` from src/utils.  Per the spec (§7) the provider/transport
`OAuthError` is not one of the flow-engine kinds, so the engine's
`isinstance` pass-through lists do not match it and it gets re-wrapped.) -/

inductive ErrKind where
  | configuration
  | invalidState
  | authorization
  | token
  | userInfo
  | storage
  | oauth
  deriving DecidableEq, Repr

/-- An exception: kind plus message. -/
structure PErr where
  kind : ErrKind
  msg : String
  deriving DecidableEq, Repr

/-- The kind of the error of a failed result, `none` on success. -/
def errKindOf {α : Type} (r : Except PErr α) : Option ErrKind :=
  match r with
  | .error e => some e.kind
  | .ok _ => none

/-- `true` exactly on successful results. -/
def isOkE {α : Type} (r : Except PErr α) : Bool :=
  match r with
  | .ok _ => true
  | .error _ => false

/-! ## Provider descriptors
(src/providers/{apple,linkedin,discord,microsoft}.py.  The google, github,
facebook and twitter provider files are absent from the tree; the claims
below only name providers whose files are present.) -/

inductive ProviderKind where
  | apple
  | linkedin
  | discord
  | microsoft
  deriving DecidableEq, Repr

/-- A constructed provider instance: kind plus the constructor arguments
(`client_id`, `client_secret`, `redirect_uri`, `scopes`; `tenant` is only
read by the Microsoft endpoints).  `scopes` is mutable state: the client
overwrites it in `get_authorization_url`. -/
structure ProviderInst where
  kind : ProviderKind
  client_id : String
  client_secret : Option String := none
  redirect_uri : Option String := none
  scopes : List String := []
  tenant : String := "common"
  deriving DecidableEq, Repr

def ProviderInst.className (p : ProviderInst) : String :=
  match p.kind with
  | .apple => "AppleProvider"
  | .linkedin => "LinkedInProvider"
  | .discord => "DiscordProvider"
  | .microsoft => "MicrosoftProvider"

def ProviderInst.authorization_endpoint (p : ProviderInst) : String :=
  match p.kind with
  | .apple => "https://appleid.apple.com/auth/authorize"
  | .linkedin => "https://www.linkedin.com/oauth/v2/authorization"
  | .discord => "https://discord.com/api/oauth2/authorize"
  | .microsoft =>
      "https://login.microsoftonline.com/" ++ p.tenant ++
        "/oauth2/v2.0/authorize"

def ProviderInst.token_endpoint (p : ProviderInst) : String :=
  match p.kind with
  | .apple => "https://appleid.apple.com/auth/token"
  | .linkedin => "https://www.linkedin.com/oauth/v2/accessToken"
  | .discord => "https://discord.com/api/oauth2/token"
  | .microsoft =>
      "https://login.microsoftonline.com/" ++ p.tenant ++
        "/oauth2/v2.0/token"

/-- `revocation_endpoint` attribute: set by Apple, Discord and Microsoft,
absent on LinkedIn. -/
def ProviderInst.revocation_endpoint (p : ProviderInst) : Option String :=
  match p.kind with
  | .apple => some "https://appleid.apple.com/auth/revoke"
  | .linkedin => none
  | .discord => some "https://discord.com/api/oauth2/token/revoke"
  | .microsoft =>
      some ("https://login.microsoftonline.com/" ++ p.tenant ++
        "/oauth2/v2.0/logout")

/-- `user_info_endpoint` attribute: absent on Apple. -/
def ProviderInst.user_info_endpoint (p : ProviderInst) : Option String :=
  match p.kind with
  | .apple => none
  | .linkedin => some "https://api.linkedin.com/v2/me"
  | .discord => some "https://discord.com/api/users/@me"
  | .microsoft => some "https://graph.microsoft.com/v1.0/me"

/-- `hasattr(provider, 'get_user_info')`: LinkedIn, Discord and Microsoft
define the method; Apple does not. -/
def ProviderInst.hasGetUserInfoMethod (p : ProviderInst) : Bool :=
  match p.kind with
  | .apple => false
  | _ => true

/-- Modelled from the spec: `providers/base.py` is absent from the tree,
so whether `hasattr(provider, 'exchange_code_for_access_token_pkce')`
holds for a given subclass cannot be read off the sources.  Spec §4.2
states that under `use_pkce` the engine issues the PKCE-variant exchange
request for every provider, i.e. the base class supplies the method, so
the attribute test succeeds on all providers. -/
def ProviderInst.hasPkceExchange (_p : ProviderInst) : Bool :=
  true

/-- A network request as the transport collaborator sees it:
method, URL, headers and form body. -/
structure NetRequest where
  method : String
  url : String
  headers : List (String × String) := []
  body : Dict := []
  deriving DecidableEq, Repr

/-- `hasattr(provider, 'revoke_token')` together with the request that the
provider method would issue: Apple (src/providers/apple.py lines 100-126)
posts `client_id`, `client_secret`, `token` and `token_type_hint` to its
revocation endpoint; Discord (src/providers/discord.py lines 106-134)
posts `client_id`, `client_secret` and `token` with a form content type;
LinkedIn and Microsoft define no `revoke_token` method. -/
def ProviderInst.revoke_request (p : ProviderInst) (token : String) :
    Option NetRequest :=
  match p.kind with
  | .apple =>
      some { method := "POST"
             url := "https://appleid.apple.com/auth/revoke"
             body := [("client_id", .pstr p.client_id),
                      ("client_secret", optStrVal p.client_secret),
                      ("token", .pstr token),
                      ("token_type_hint", .pstr "access_token")] }
  | .discord =>
      some { method := "POST"
             url := "https://discord.com/api/oauth2/token/revoke"
             headers := [("Content-Type",
                          "application/x-www-form-urlencoded")]
             body := [("client_id", .pstr p.client_id),
                      ("client_secret", optStrVal p.client_secret),
                      ("token", .pstr token)] }
  | .linkedin => none
  | .microsoft => none

/-! ## Flow engine state (both OAuth2Client and AsyncOAuth2Client hold
exactly these fields; src/client/oauth2_client.py lines 74-111 and
src/async_client/async_oauth2_client.py lines 76-113). -/

structure OAuth2Client where
  provider : ProviderInst
  client_id : String
  client_secret : Option String := none
  redirect_uri : Option String := none
  scopes : List String := []
  use_pkce : Bool := false
  code_verifier : Option String := none
  state : Option String := none
  deriving DecidableEq, Repr

/-- Python truthiness of an optional string: `None` and `""` are falsy. -/
def optFalsy (o : Option String) : Bool :=
  match o with
  | none => true
  | some s => s.isEmpty

/-- Python truthiness (positive form) of an optional string argument. -/
def strTruthy (o : Option String) : Bool :=
  !(optFalsy o)

/-- Python truthiness of the transport result: `None` and `{}` are falsy. -/
def dictTruthy (o : Option Dict) : Bool :=
  match o with
  | none => false
  | some d => !d.isEmpty

/-- State validation prologue of `exchange_code`
(src/client/oauth2_client.py lines 180-187) — the async client repeats
these lines verbatim (src/async_client/async_oauth2_client.py lines
184-191), so both engines share this definition. -/
def validateStateCheck (c : OAuth2Client) (state : Option String)
    (validate_state : Bool) : Option PErr :=
  if validate_state && strTruthy state then
    if optFalsy c.state then
      some ⟨.invalidState, "No state was stored for validation"⟩
    else if state = c.state then
      none
    else
      some ⟨.invalidState,
        "State parameter mismatch. Possible CSRF attack."⟩
  else
    none

/-- Outcome of one exchange attempt: result, post-call engine state, and
whether the network call was reached. -/
structure ExchangeResult where
  result : Except PErr TokenResponse
  client : OAuth2Client
  network_called : Bool
  deriving Repr

/-- Error message of the re-wrapped provider/transport failure in the
blocking exchange: the provider raises
`OAuthError("Failed to exchange code for access token")` on a falsy
transport result, and the engine re-raises it as
`AuthorizationError(f"Failed to exchange code for token: {e}")`. -/
def exchangeWrapMsg : String :=
  "Failed to exchange code for token: Failed to exchange code for access token"

/-- The tail of the blocking exchange after state validation and PKCE
gating (src/client/oauth2_client.py lines 189-215): a falsy transport
result makes the provider raise `OAuthError`, which the engine's
`except` clause re-wraps as `AuthorizationError`; a truthy result is
parsed with `from_dict`, after which state and verifier are cleared.
The same handling is modelled for the spec-modelled PKCE-variant request
(`providers/base.py` is absent). -/
def finishSyncExchange (c : OAuth2Client) (net : Option Dict) (now : Int) :
    ExchangeResult :=
  match net with
  | none =>
      { result := .error ⟨.authorization, exchangeWrapMsg⟩
        client := c
        network_called := true }
  | some d =>
      if d.isEmpty then
        { result := .error ⟨.authorization, exchangeWrapMsg⟩
          client := c
          network_called := true }
      else
        { result := .ok (TokenResponse.from_dict now d)
          client := { c with state := none, code_verifier := none }
          network_called := true }

/-- `OAuth2Client.exchange_code` (src/client/oauth2_client.py lines
159-215).  `net` is the transport oracle for the single network call. -/
def OAuth2Client.exchange_code (c : OAuth2Client) (_code : String)
    (state : Option String) (validate_state : Bool) (net : Option Dict)
    (now : Int) : ExchangeResult :=
  match validateStateCheck c state validate_state with
  | some e => { result := .error e, client := c, network_called := false }
  | none =>
    if c.use_pkce && c.provider.hasPkceExchange then
      if optFalsy c.code_verifier then
        { result := .error ⟨.authorization,
            "PKCE enabled but no code verifier available"⟩
          client := c
          network_called := false }
      else
        finishSyncExchange c net now
    else
      finishSyncExchange c net now

/-- The tail of the non-blocking exchange (src/async_client/
async_oauth2_client.py lines 193-251): `make_async_request` never raises
(it returns `None` on any failure, src/utils/async_request.py), so a
falsy transport result trips the engine's own empty-response check and
raises `TokenError`, which passes through the `except` clause unwrapped. -/
def finishAsyncExchange (c : OAuth2Client) (net : Option Dict) (now : Int) :
    ExchangeResult :=
  match net with
  | none =>
      { result := .error ⟨.token, "Provider returned empty token response"⟩
        client := c
        network_called := true }
  | some d =>
      if d.isEmpty then
        { result := .error ⟨.token,
            "Provider returned empty token response"⟩
          client := c
          network_called := true }
      else
        { result := .ok (TokenResponse.from_dict now d)
          client := { c with state := none, code_verifier := none }
          network_called := true }

/-- `AsyncOAuth2Client.exchange_code_async` (src/async_client/
async_oauth2_client.py lines 163-251). -/
def OAuth2Client.exchange_code_async (c : OAuth2Client) (_code : String)
    (state : Option String) (validate_state : Bool) (net : Option Dict)
    (now : Int) : ExchangeResult :=
  match validateStateCheck c state validate_state with
  | some e => { result := .error e, client := c, network_called := false }
  | none =>
    if c.use_pkce && c.provider.hasPkceExchange then
      if optFalsy c.code_verifier then
        { result := .error ⟨.authorization,
            "PKCE enabled but no code verifier available"⟩
          client := c
          network_called := false }
      else
        finishAsyncExchange c net now
    else
      finishAsyncExchange c net now

/-- Outcome of a revoke call: result plus the request actually issued
(`none` when no network call happens). -/
structure RevokeResult where
  result : Except PErr Bool
  request : Option NetRequest
  deriving Repr

/-- `OAuth2Client.revoke_token` (src/client/oauth2_client.py lines
277-300): the support check is `hasattr(self.provider, 'revoke_token')`;
the provider method raises `OAuthError("Failed to revoke token")` on a
`None` transport result (an `is not None` test — an empty JSON body still
counts as success), and the engine's `except` clause wraps any exception
as `TokenError`. -/
def OAuth2Client.revoke_token (c : OAuth2Client) (token : String)
    (net : Option Dict) : RevokeResult :=
  match c.provider.revoke_request token with
  | none =>
      { result := .error ⟨.token,
          c.provider.className ++ " does not support token revocation"⟩
        request := none }
  | some req =>
      match net with
      | some _ => { result := .ok true, request := some req }
      | none =>
          { result := .error ⟨.token,
              "Failed to revoke token: Failed to revoke token"⟩
            request := some req }

/-- `AsyncOAuth2Client.revoke_token_async` (src/async_client/
async_oauth2_client.py lines 336-368): the support check is
`hasattr(self.provider, 'revocation_endpoint')`, the request body is just
`{'token': token}`, and since `make_async_request` returns `None` instead
of raising, a transport failure yields `False` rather than an error. -/
def OAuth2Client.revoke_token_async (c : OAuth2Client) (token : String)
    (net : Option Dict) : RevokeResult :=
  match c.provider.revocation_endpoint with
  | none =>
      { result := .error ⟨.token,
          c.provider.className ++ " does not support token revocation"⟩
        request := none }
  | some ep =>
      { result := .ok net.isSome
        request := some { method := "POST", url := ep
                          body := [("token", .pstr token)] } }

/-- Outcome of an identity fetch. -/
structure UserInfoResult where
  result : Except PErr UserInfo
  request : Option NetRequest
  deriving Repr

/-- `OAuth2Client.get_user_info` (src/client/oauth2_client.py lines
217-245): support check `hasattr(provider, 'get_user_info')`; the
provider issues an authenticated GET and raises `OAuthError` on a falsy
response, which the engine wraps as `UserInfoError`. -/
def OAuth2Client.get_user_info (c : OAuth2Client) (access_token : String)
    (net : Option Dict) : UserInfoResult :=
  if c.provider.hasGetUserInfoMethod then
    let req : NetRequest :=
      { method := "GET"
        url := (c.provider.user_info_endpoint).getD ""
        headers := [("Authorization", "Bearer " ++ access_token)] }
    if dictTruthy net then
      match net with
      | some d => { result := .ok (UserInfo.from_dict d), request := some req }
      | none => { result := .error ⟨.userInfo,
                    "Failed to fetch user info: Failed to fetch user info"⟩
                  request := some req }
    else
      { result := .error ⟨.userInfo,
          "Failed to fetch user info: Failed to fetch user info"⟩
        request := some req }
  else
    { result := .error ⟨.userInfo,
        c.provider.className ++ " does not support user info retrieval"⟩
      request := none }

/-- `AsyncOAuth2Client.get_user_info_async` (src/async_client/
async_oauth2_client.py lines 253-290): support check
`hasattr(provider, 'user_info_endpoint')`; a falsy transport result trips
the empty-response check (`UserInfoError`). -/
def OAuth2Client.get_user_info_async (c : OAuth2Client)
    (access_token : String) (net : Option Dict) : UserInfoResult :=
  match c.provider.user_info_endpoint with
  | none =>
      { result := .error ⟨.userInfo,
          c.provider.className ++ " does not support user info retrieval"⟩
        request := none }
  | some ep =>
      let req : NetRequest :=
        { method := "GET"
          url := ep
          headers := [("Authorization", "Bearer " ++ access_token)] }
      if dictTruthy net then
        match net with
        | some d => { result := .ok (UserInfo.from_dict d)
                      request := some req }
        | none => { result := .error ⟨.userInfo,
                      "Provider returned empty user info response"⟩
                    request := some req }
      else
        { result := .error ⟨.userInfo,
            "Provider returned empty user info response"⟩
          request := some req }

/-! ## PKCE code challenge
(`OAuth2Client._generate_code_challenge`, src/client/oauth2_client.py
lines 322-339, identical in the async client lines 390-407):
`base64.urlsafe_b64encode(hashlib.sha256(verifier.encode('utf-8'))
.digest()).decode('utf-8').rstrip('=')`.  `hashlib.sha256` is embedded as
FIPS-180-4 SHA-256 over byte lists, with 32-bit words as `Nat` reduced
`% 2^32`. -/

/-- Truncation to a 32-bit word. -/
def w32 (n : Nat) : Nat := n % 4294967296

/-- 32-bit right rotation. -/
def rotr32 (r x : Nat) : Nat := w32 ((x >>> r) ||| (x <<< (32 - r)))

def shaCh (x y z : Nat) : Nat := (x &&& y) ^^^ ((x ^^^ 4294967295) &&& z)

def shaMaj (x y z : Nat) : Nat := (x &&& y) ^^^ (x &&& z) ^^^ (y &&& z)

def bsig0 (x : Nat) : Nat := rotr32 2 x ^^^ rotr32 13 x ^^^ rotr32 22 x

def bsig1 (x : Nat) : Nat := rotr32 6 x ^^^ rotr32 11 x ^^^ rotr32 25 x

def ssig0 (x : Nat) : Nat := rotr32 7 x ^^^ rotr32 18 x ^^^ (x >>> 3)

def ssig1 (x : Nat) : Nat := rotr32 17 x ^^^ rotr32 19 x ^^^ (x >>> 10)

/-- The SHA-256 round constants (FIPS 180-4 section 4.2.2, in decimal). -/
def shaK : List Nat :=
  [1116352408, 1899447441, 3049323471, 3921009573,
   961987163, 1508970993, 2453635748, 2870763221,
   3624381080, 310598401, 607225278, 1426881987,
   1925078388, 2162078206, 2614888103, 3248222580,
   3835390401, 4022224774, 264347078, 604807628,
   770255983, 1249150122, 1555081692, 1996064986,
   2554220882, 2821834349, 2952996808, 3210313671,
   3336571891, 3584528711, 113926993, 338241895,
   666307205, 773529912, 1294757372, 1396182291,
   1695183700, 1986661051, 2177026350, 2456956037,
   2730485921, 2820302411, 3259730800, 3345764771,
   3516065817, 3600352804, 4094571909, 275423344,
   430227734, 506948616, 659060556, 883997877,
   958139571, 1322822218, 1537002063, 1747873779,
   1955562222, 2024104815, 2227730452, 2361852424,
   2428436474, 2756734187, 3204031479, 3329325298]

/-- Big-endian 8-byte rendering of the message bit length. -/
def beBytes8 (n : Nat) : List Nat :=
  [n / 72057594037927936 % 256, n / 281474976710656 % 256,
   n / 1099511627776 % 256, n / 4294967296 % 256,
   n / 16777216 % 256, n / 65536 % 256, n / 256 % 256, n % 256]

/-- Big-endian 4-byte rendering of a 32-bit word. -/
def beBytes4 (n : Nat) : List Nat :=
  [n / 16777216 % 256, n / 65536 % 256, n / 256 % 256, n % 256]

/-- Number of zero bytes after the 0x80 marker so the padded length is
56 mod 64. -/
def shaZeroCount (len : Nat) : Nat := (119 - len % 64) % 64

/-- SHA-256 message padding. -/
def padMessage (msg : List Nat) : List Nat :=
  msg ++ [128] ++ List.replicate (shaZeroCount msg.length) 0 ++
    beBytes8 (msg.length * 8)

/-- Big-endian 32-bit words of a byte stream (length a multiple of 4
after padding). -/
def toWordsBE : List Nat → List Nat
  | b1 :: b2 :: b3 :: b4 :: rest =>
      (b1 * 16777216 + b2 * 65536 + b3 * 256 + b4) :: toWordsBE rest
  | _ => []

/-- Split the word stream into 16-word blocks. -/
def chunk16 : List Nat → List (List Nat)
  | [] => []
  | w :: ws => (w :: ws.take 15) :: chunk16 (ws.drop 15)
termination_by l => l.length
decreasing_by
  simp only [List.length_drop, List.length_cons]
  omega

/-- Extend a 16-word block to the 64-word message schedule (`fuel` = 48). -/
def extendW : Nat → List Nat → List Nat
  | 0, w => w
  | fuel + 1, w =>
      let i := w.length
      let nw := w32 (ssig1 (w.getD (i - 2) 0) + w.getD (i - 7) 0 +
        ssig0 (w.getD (i - 15) 0) + w.getD (i - 16) 0)
      extendW fuel (w ++ [nw])

/-- The eight SHA-256 working variables. -/
structure Hash8 where
  a : Nat
  b : Nat
  c : Nat
  d : Nat
  e : Nat
  f : Nat
  g : Nat
  h : Nat
  deriving DecidableEq, Repr

/-- The SHA-256 initial hash value (FIPS 180-4 section 5.3.3, in
decimal). -/
def shaH0 : Hash8 :=
  ⟨1779033703, 3144134277, 1013904242, 2773480762,
   1359893119, 2600822924, 528734635, 1541459225⟩

/-- One SHA-256 compression round (argument: round constant × schedule
word). -/
def roundStep (s : Hash8) (kw : Nat × Nat) : Hash8 :=
  let t1 := w32 (s.h + bsig1 s.e + shaCh s.e s.f s.g + kw.1 + kw.2)
  let t2 := w32 (bsig0 s.a + shaMaj s.a s.b s.c)
  ⟨w32 (t1 + t2), s.a, s.b, s.c, w32 (s.d + t1), s.e, s.f, s.g⟩

/-- Compress one 16-word block into the running hash. -/
def processBlock (s : Hash8) (block : List Nat) : Hash8 :=
  let w := extendW 48 block
  let r := (shaK.zip w).foldl roundStep s
  ⟨w32 (s.a + r.a), w32 (s.b + r.b), w32 (s.c + r.c), w32 (s.d + r.d),
   w32 (s.e + r.e), w32 (s.f + r.f), w32 (s.g + r.g), w32 (s.h + r.h)⟩

/-- SHA-256 digest of a byte list, as 32 bytes. -/
def sha256 (msg : List Nat) : List Nat :=
  let s := (chunk16 (toWordsBE (padMessage msg))).foldl processBlock shaH0
  beBytes4 s.a ++ beBytes4 s.b ++ beBytes4 s.c ++ beBytes4 s.d ++
    beBytes4 s.e ++ beBytes4 s.f ++ beBytes4 s.g ++ beBytes4 s.h

/-- UTF-8 bytes of a string (`verifier.encode('utf-8')`). -/
def utf8Encode (s : String) : List Nat :=
  s.toUTF8.toList.map (fun b => b.toNat)

/-- The URL-safe base64 alphabet (`base64.urlsafe_b64encode`:
standard alphabet with `+`/`/` replaced by `-`/`_`). -/
def b64Alphabet : List Char :=
  "ABCDEFGHIJKLMNOPQRSTUVWXYZabcdefghijklmnopqrstuvwxyz0123456789-_".data

/-- Index into the base64 alphabet. -/
def b64Char (n : Nat) : Char :=
  match b64Alphabet.drop n with
  | c :: _ => c
  | [] => 'A'

/-- `base64.urlsafe_b64encode`: 3-byte groups to 4 characters, with
`=` padding on a trailing group of 1 or 2 bytes. -/
def b64UrlsafeEncode : List Nat → List Char
  | [] => []
  | [b1] => [b64Char (b1 / 4), b64Char (b1 % 4 * 16), '=', '=']
  | [b1, b2] => [b64Char (b1 / 4), b64Char (b1 % 4 * 16 + b2 / 16),
      b64Char (b2 % 16 * 4), '=']
  | b1 :: b2 :: b3 :: rest =>
      b64Char (b1 / 4) :: b64Char (b1 % 4 * 16 + b2 / 16) ::
      b64Char (b2 % 16 * 4 + b3 / 64) :: b64Char (b3 % 64) ::
      b64UrlsafeEncode rest

/-- The spec's `base64url_nopad` encoding (emits no padding at all),
stated independently of the source's encode-then-strip composition. -/
def b64UrlNoPad : List Nat → List Char
  | [] => []
  | [b1] => [b64Char (b1 / 4), b64Char (b1 % 4 * 16)]
  | [b1, b2] => [b64Char (b1 / 4), b64Char (b1 % 4 * 16 + b2 / 16),
      b64Char (b2 % 16 * 4)]
  | b1 :: b2 :: b3 :: rest =>
      b64Char (b1 / 4) :: b64Char (b1 % 4 * 16 + b2 / 16) ::
      b64Char (b2 % 16 * 4 + b3 / 64) :: b64Char (b3 % 64) ::
      b64UrlNoPad rest

/-- Python `str.rstrip('=')`: drop every trailing `=`. -/
def rstripPad (cs : List Char) : List Char :=
  (cs.reverse.dropWhile (fun c => c == '=')).reverse

/-- `OAuth2Client._generate_code_challenge` (src/client/oauth2_client.py
lines 322-339). -/
def generate_code_challenge (verifier : String) : String :=
  String.mk (rstripPad (b64UrlsafeEncode (sha256 (utf8Encode verifier))))

/-- The spec-side challenge: `base64url_nopad(SHA256(code_verifier))`. -/
def base64url_nopad (bs : List Nat) : String :=
  String.mk (b64UrlNoPad bs)

/-! ## Authorization URL generation
(`get_authorization_url`, src/client/oauth2_client.py lines 113-157;
the async client repeats it verbatim, lines 115-161).  The URL is kept as
endpoint + parameter list; `render` joins it to the string form. -/

structure AuthUrl where
  endpoint : String
  params : List (String × String)
  deriving DecidableEq, Repr

def AuthUrl.render (u : AuthUrl) : String :=
  u.endpoint ++ "?" ++
    String.intercalate "&" (u.params.map (fun kv => kv.1 ++ "=" ++ kv.2))

/-- First value under a parameter key. -/
def paramGet (u : AuthUrl) (k : String) : Option String :=
  (u.params.find? (fun kv => kv.1 == k)).map (fun kv => kv.2)

/-- Python truthiness of the optional scope-list argument. -/
def listTruthy (o : Option (List String)) : Bool :=
  match o with
  | none => false
  | some l => !l.isEmpty

/-- Modelled from the spec: `BaseProvider.prepare_auth_url` lives in the
absent `providers/base.py`.  Spec §4.2: the URL is built from the
descriptor's `authorization_endpoint` plus `client_id`, `redirect_uri`,
`response_type=code`, the space-joined current scopes, `state`, and the
caller's extra parameters. -/
def prepare_auth_url (p : ProviderInst) (st : String)
    (extra : List (String × String)) : AuthUrl :=
  { endpoint := p.authorization_endpoint
    params := [("client_id", p.client_id),
               ("redirect_uri", p.redirect_uri.getD ""),
               ("response_type", "code"),
               ("scope", String.intercalate " " p.scopes),
               ("state", st)] ++ extra }

/-- The `re.sub(r'state=[^&]*', ...)` override (src/client/
oauth2_client.py lines 152-155): every `state` parameter value in the URL
is replaced. -/
def substState (u : AuthUrl) (s : String) : AuthUrl :=
  { u with
    params := u.params.map (fun kv => if kv.1 = "state" then (kv.1, s) else kv) }

/-- `OAuth2Client.get_authorization_url` (src/client/oauth2_client.py
lines 113-157).  `freshState`/`freshVerifier` stand for the
`secrets.token_urlsafe` draws. -/
def OAuth2Client.get_authorization_url (c : OAuth2Client)
    (scope : Option (List String)) (st : Option String)
    (extra : List (String × String)) (freshState freshVerifier : String) :
    AuthUrl × OAuth2Client :=
  let c1 := if listTruthy scope then
      { c with provider := { c.provider with scopes := scope.getD [] } }
    else c
  let newState := if strTruthy st then st.getD "" else freshState
  let c2 := { c1 with state := some newState }
  let c3 := if c.use_pkce then { c2 with code_verifier := some freshVerifier }
    else c2
  let extra2 := if c.use_pkce then
      extra ++ [("code_challenge", generate_code_challenge freshVerifier),
                ("code_challenge_method", "S256")]
    else extra
  let url := prepare_auth_url c3.provider newState extra2
  let url2 := if strTruthy st || c.use_pkce then substState url newState
    else url
  (url2, c3)

/-! ## Theorems -/

/-- Shared helper: the serialized token fields survive a
`to_dict`/`from_dict` round trip. -/
theorem fromDict_toDict_fields (t : TokenResponse) (now : Int) :
    (TokenResponse.from_dict now t.to_dict).access_token = t.access_token ∧
    (TokenResponse.from_dict now t.to_dict).token_type = t.token_type ∧
    (TokenResponse.from_dict now t.to_dict).expires_in = t.expires_in ∧
    (TokenResponse.from_dict now t.to_dict).refresh_token = t.refresh_token ∧
    (TokenResponse.from_dict now t.to_dict).scope = t.scope ∧
    (TokenResponse.from_dict now t.to_dict).id_token = t.id_token := by
  obtain ⟨a, b, ei, rt, sc, it, rr, ia⟩ := t
  cases ei <;> cases rt <;> cases sc <;> cases it <;>
    exact ⟨rfl, rfl, rfl, rfl, rfl, rfl⟩

/-- C7: for every TokenSet value `t`, `from_dict (to_dict t)` yields a
TokenSet whose `access_token`, `token_type`, `refresh_token` and `scope`
fields equal those of `t`. -/
theorem c7_token_roundtrip (t : TokenResponse) (now : Int) :
    (TokenResponse.from_dict now t.to_dict).access_token = t.access_token ∧
    (TokenResponse.from_dict now t.to_dict).token_type = t.token_type ∧
    (TokenResponse.from_dict now t.to_dict).refresh_token = t.refresh_token ∧
    (TokenResponse.from_dict now t.to_dict).scope = t.scope := by
  have h := fromDict_toDict_fields t now
  exact ⟨h.1, h.2.1, h.2.2.2.1, h.2.2.2.2.1⟩

theorem fsLookup_insert_self (fs : FileSystem) (n m : String) (d : Dict)
    (h : n = m) : fsLookup (fsInsert fs n d) m = some d := by
  subst h
  simp [fsLookup, fsInsert, List.find?]

theorem fsLookup_remove_self (fs : FileSystem) (n : String) :
    fsLookup (fsRemove fs n) n = none := by
  induction fs with
  | nil => rfl
  | cons kv fs ih =>
    by_cases h : kv.1 == n
    · simpa [fsRemove, List.filter, h] using ih
    · simp only [fsRemove, List.filter, h] at ih ⊢
      simp only [Bool.not_false, fsLookup, List.find?, h] at ih ⊢
      exact ih

/-- C9: user ids with equal sanitized forms address the same stored record:
a save under one is visible to a get under the other (returning the
persisted token, with the serialized `access_token` preserved), a delete
under either removes the record, and an id made only of disallowed
characters sanitizes to the empty string (so all such ids alias one
record). -/
theorem c9_sanitized_aliasing (fs : FileSystem) (u1 u2 : String)
    (t : TokenResponse) (now : Int)
    (h : sanitize_user_id u1 = sanitize_user_id u2) :
    get_token (save_token fs u1 t) u2 now =
      some (TokenResponse.from_dict now t.to_dict) ∧
    (get_token (save_token fs u1 t) u2 now).map
        (fun r => r.access_token) = some t.access_token ∧
    (delete_token (save_token fs u1 t) u2).1 = true ∧
    get_token (delete_token (save_token fs u1 t) u2).2 u1 now = none ∧
    (u1.data.all (fun c => !(keepChar c)) = true →
      sanitize_user_id u1 = "") := by
  have hn : tokenFileName u1 = tokenFileName u2 := by
    simp [tokenFileName, h]
  have hget : get_token (save_token fs u1 t) u2 now =
      some (TokenResponse.from_dict now t.to_dict) := by
    simp [get_token, save_token, fsLookup_insert_self fs _ _ _ hn]
  have hdel : delete_token (save_token fs u1 t) u2 =
      (true, fsRemove (save_token fs u1 t) (tokenFileName u2)) := by
    have hl : fsLookup (save_token fs u1 t) (tokenFileName u2) =
        some t.to_dict := fsLookup_insert_self fs _ _ _ hn
    simp [delete_token, hl]
  refine ⟨hget, ?_, ?_, ?_, ?_⟩
  · rw [hget]
    simp [(fromDict_toDict_fields t now).1]
  · rw [hdel]
  · rw [hdel]
    simp only [get_token, hn]
    rw [fsLookup_remove_self]
    rfl
  · intro hall
    have hkc : ∀ c ∈ u1.data, keepChar c = false := by
      intro c hc
      have := (List.all_eq_true.mp hall) c hc
      simpa using this
    have hfil : u1.data.filter keepChar = [] := by
      apply List.filter_eq_nil_iff.mpr
      intro c hc
      simp [hkc c hc]
    simp [sanitize_user_id, hfil]

/-- Witness for C9 at concrete inputs: ids "a/b" and "a.b!" both sanitize
to "ab" and alias one record; "/!" sanitizes to the empty string. -/
theorem c9_sanitized_aliasing_witness :
    (get_token (save_token [] "a/b" { access_token := "tok" }) "a.b!" 0 =
      some (TokenResponse.from_dict 0
        (TokenResponse.to_dict { access_token := "tok" })) ∧
    (get_token (save_token [] "a/b" { access_token := "tok" }) "a.b!" 0).map
        (fun r => r.access_token) = some "tok" ∧
    (delete_token (save_token [] "a/b" { access_token := "tok" }) "a.b!").1 =
      true ∧
    get_token
      (delete_token (save_token [] "a/b" { access_token := "tok" })
        "a.b!").2 "a/b" 0 = none ∧
    ("a/b".data.all (fun c => !(keepChar c)) = true →
      sanitize_user_id "a/b" = "")) ∧
    sanitize_user_id "/!" = "" := by
  refine ⟨c9_sanitized_aliasing [] "a/b" "a.b!" { access_token := "tok" } 0
    (by decide), by decide⟩

/-- Every base64 alphabet character differs from the padding character. -/
theorem b64Char_ne_pad (n : Nat) : (b64Char n == '=') = false := by
  have hall : ∀ c ∈ b64Alphabet, (c == '=') = false := by decide
  unfold b64Char
  cases h : b64Alphabet.drop n with
  | nil => rfl
  | cons c cs =>
    exact hall c (List.drop_subset n b64Alphabet (by
      rw [h]
      exact List.mem_cons_self c cs))

theorem dropWhile_append_split (p : Char → Bool) (a b : List Char) :
    (a ++ b).dropWhile p =
      if (a.dropWhile p).isEmpty then b.dropWhile p
      else a.dropWhile p ++ b := by
  induction a with
  | nil => simp [List.dropWhile]
  | cons x a ih =>
    by_cases hx : p x
    · simpa [List.dropWhile, hx] using ih
    · simp [List.dropWhile, hx]

theorem dropWhile_of_all_neg (p : Char → Bool) (l : List Char)
    (h : ∀ c ∈ l, p c = false) : l.dropWhile p = l := by
  cases l with
  | nil => rfl
  | cons x l =>
    have hx := h x (List.mem_cons_self x l)
    simp [List.dropWhile, hx]

/-- Stripping trailing padding commutes past a padding-free front. -/
theorem rstripPad_append (xs ys : List Char)
    (h : ∀ c ∈ xs, (c == '=') = false) :
    rstripPad (xs ++ ys) = xs ++ rstripPad ys := by
  unfold rstripPad
  rw [List.reverse_append, dropWhile_append_split]
  by_cases hy : ((ys.reverse.dropWhile (fun c => c == '=')).isEmpty : Bool)
  · rw [if_pos hy]
    have hxs : xs.reverse.dropWhile (fun c => c == '=') = xs.reverse := by
      apply dropWhile_of_all_neg
      intro c hc
      exact h c (List.mem_reverse.mp hc)
    rw [hxs, List.reverse_reverse]
    have : ys.reverse.dropWhile (fun c => c == '=') = [] :=
      List.isEmpty_iff.mp hy
    rw [this]
    simp
  · rw [if_neg hy]
    rw [List.reverse_append, List.reverse_reverse]

/-- The padded base64 encoding followed by `rstrip('=')` agrees with the
padding-free encoding. -/
theorem rstripPad_b64UrlsafeEncode (bs : List Nat) :
    rstripPad (b64UrlsafeEncode bs) = b64UrlNoPad bs := by
  induction bs using b64UrlsafeEncode.induct with
  | case1 => rfl
  | case2 b1 =>
    have h := rstripPad_append [b64Char (b1 / 4), b64Char (b1 % 4 * 16)]
      ['=', '='] (by
        intro c hc
        simp only [List.mem_cons, List.not_mem_nil, or_false] at hc
        rcases hc with rfl | rfl
        · exact b64Char_ne_pad _
        · exact b64Char_ne_pad _)
    simpa [b64UrlsafeEncode, b64UrlNoPad, rstripPad] using h
  | case3 b1 b2 =>
    have h := rstripPad_append
      [b64Char (b1 / 4), b64Char (b1 % 4 * 16 + b2 / 16),
       b64Char (b2 % 16 * 4)] ['='] (by
        intro c hc
        simp only [List.mem_cons, List.not_mem_nil, or_false] at hc
        rcases hc with rfl | rfl | rfl
        · exact b64Char_ne_pad _
        · exact b64Char_ne_pad _
        · exact b64Char_ne_pad _)
    simpa [b64UrlsafeEncode, b64UrlNoPad, rstripPad] using h
  | case4 b1 b2 b3 rest ih =>
    have h := rstripPad_append
      [b64Char (b1 / 4), b64Char (b1 % 4 * 16 + b2 / 16),
       b64Char (b2 % 16 * 4 + b3 / 64), b64Char (b3 % 64)]
      (b64UrlsafeEncode rest) (by
        intro c hc
        simp only [List.mem_cons, List.not_mem_nil, or_false] at hc
        rcases hc with rfl | rfl | rfl | rfl
        · exact b64Char_ne_pad _
        · exact b64Char_ne_pad _
        · exact b64Char_ne_pad _
        · exact b64Char_ne_pad _)
    simp only [b64UrlsafeEncode, b64UrlNoPad]
    rw [show b64Char (b1 / 4) :: b64Char (b1 % 4 * 16 + b2 / 16) ::
        b64Char (b2 % 16 * 4 + b3 / 64) :: b64Char (b3 % 64) ::
        b64UrlsafeEncode rest =
      [b64Char (b1 / 4), b64Char (b1 % 4 * 16 + b2 / 16),
       b64Char (b2 % 16 * 4 + b3 / 64), b64Char (b3 % 64)] ++
        b64UrlsafeEncode rest from rfl]
    rw [h, ih]
    rfl

/-- The padding-free encoding never emits `=`. -/
theorem b64UrlNoPad_no_pad (bs : List Nat) :
    ∀ c ∈ b64UrlNoPad bs, (c == '=') = false := by
  induction bs using b64UrlNoPad.induct with
  | case1 =>
    intro c hc
    cases hc
  | case2 b1 =>
    intro c hc
    simp only [b64UrlNoPad, List.mem_cons, List.not_mem_nil, or_false] at hc
    rcases hc with rfl | rfl
    · exact b64Char_ne_pad _
    · exact b64Char_ne_pad _
  | case3 b1 b2 =>
    intro c hc
    simp only [b64UrlNoPad, List.mem_cons, List.not_mem_nil, or_false] at hc
    rcases hc with rfl | rfl | rfl
    · exact b64Char_ne_pad _
    · exact b64Char_ne_pad _
    · exact b64Char_ne_pad _
  | case4 b1 b2 b3 rest ih =>
    intro c hc
    simp only [b64UrlNoPad, List.mem_cons] at hc
    rcases hc with rfl | rfl | rfl | rfl | h1
    · exact b64Char_ne_pad _
    · exact b64Char_ne_pad _
    · exact b64Char_ne_pad _
    · exact b64Char_ne_pad _
    · exact ih c h1

/-- C5: the derived code challenge equals the base64url-no-padding
encoding of the SHA-256 digest of the verifier's UTF-8 bytes, and its
output never contains `=` (the derivation is a plain function of the
verifier, hence deterministic). -/
theorem c5_pkce_challenge (verifier : String) :
    generate_code_challenge verifier =
      base64url_nopad (sha256 (utf8Encode verifier)) ∧
    ((generate_code_challenge verifier).data.all
      (fun c => !(c == '='))) = true := by
  have heq : generate_code_challenge verifier =
      base64url_nopad (sha256 (utf8Encode verifier)) := by
    unfold generate_code_challenge base64url_nopad
    rw [rstripPad_b64UrlsafeEncode]
  refine ⟨heq, ?_⟩
  rw [heq]
  apply List.all_eq_true.mpr
  intro c hc
  have : (c == '=') = false :=
    b64UrlNoPad_no_pad (sha256 (utf8Encode verifier)) c hc
  simp [this]

/-- Helper: with validation on and a non-empty state argument, a missing
or different stored state makes the shared validation prologue fail with
an `InvalidStateError`-kind error. -/
theorem validateStateCheck_fails (c : OAuth2Client) (s : String)
    (hs : s ≠ "") (h : c.state = none ∨ c.state ≠ some s) :
    ∃ e, validateStateCheck c (some s) true = some e ∧
      e.kind = .invalidState := by
  have hse : s.isEmpty = false := by
    cases hh : s.isEmpty
    · rfl
    · exact absurd (String.isEmpty_iff s |>.mp hh) hs
  unfold validateStateCheck
  simp only [strTruthy, optFalsy, hse, Bool.not_false, Bool.and_self,
    if_true]
  by_cases hf : optFalsy c.state
  · rw [if_pos (by simpa [optFalsy] using hf)]
    exact ⟨_, rfl, rfl⟩
  · rw [if_neg (by simpa [optFalsy] using hf)]
    have hne : (some s : Option String) ≠ c.state := by
      rcases h with h | h
      · rw [h]
        exact fun hcon => Option.noConfusion hcon
      · exact fun hcon => h hcon.symm
    rw [if_neg hne]
    exact ⟨_, rfl, rfl⟩

/-- C1: with `validate_state=true` and a non-empty state argument, a
missing stored state or a mismatch fails with `InvalidStateError` in both
execution modes, and the network call is never reached. -/
theorem c1_state_validation (c : OAuth2Client) (code s : String)
    (net : Option Dict) (now : Int) (hs : s ≠ "")
    (h : c.state = none ∨ c.state ≠ some s) :
    errKindOf (c.exchange_code code (some s) true net now).result =
      some .invalidState ∧
    (c.exchange_code code (some s) true net now).network_called = false ∧
    errKindOf (c.exchange_code_async code (some s) true net now).result =
      some .invalidState ∧
    (c.exchange_code_async code (some s) true net now).network_called =
      false := by
  obtain ⟨e, he, hk⟩ := validateStateCheck_fails c s hs h
  refine ⟨?_, ?_, ?_, ?_⟩ <;>
    simp [OAuth2Client.exchange_code, OAuth2Client.exchange_code_async,
      he, errKindOf, hk]

/-- Witness for C1: a client that stored state "good" rejects state "evil"
without a network call, in both modes. -/
theorem c1_state_validation_witness :
    errKindOf
      (OAuth2Client.exchange_code
        { provider := { kind := .discord, client_id := "id" }
          client_id := "id", state := some "good" }
        "code" (some "evil") true none 0).result = some .invalidState ∧
    (OAuth2Client.exchange_code
        { provider := { kind := .discord, client_id := "id" }
          client_id := "id", state := some "good" }
        "code" (some "evil") true none 0).network_called = false ∧
    errKindOf
      (OAuth2Client.exchange_code_async
        { provider := { kind := .discord, client_id := "id" }
          client_id := "id", state := some "good" }
        "code" (some "evil") true none 0).result = some .invalidState ∧
    (OAuth2Client.exchange_code_async
        { provider := { kind := .discord, client_id := "id" }
          client_id := "id", state := some "good" }
        "code" (some "evil") true none 0).network_called = false :=
  c1_state_validation
    { provider := { kind := .discord, client_id := "id" }
      client_id := "id", state := some "good" }
    "code" "evil" none 0 (by decide) (Or.inr (by decide))

/-- C2 counterexample: an exchange that reaches the network call and fails
(transport failure) leaves `current_state` stored, contradicting the
claim that state is cleared on any outcome that reaches the network. -/
theorem c2_counterexample :
    (OAuth2Client.exchange_code
      { provider := { kind := .discord, client_id := "id" }
        client_id := "id", state := some "s", code_verifier := some "v" }
      "code" (some "s") true none 0).network_called = true ∧
    (OAuth2Client.exchange_code
      { provider := { kind := .discord, client_id := "id" }
        client_id := "id", state := some "s", code_verifier := some "v" }
      "code" (some "s") true none 0).client.state = some "s" ∧
    isOkE (OAuth2Client.exchange_code
      { provider := { kind := .discord, client_id := "id" }
        client_id := "id", state := some "s", code_verifier := some "v" }
      "code" (some "s") true none 0).result = false := by
  exact ⟨rfl, rfl, rfl⟩

/-- C2 amended: `current_state` and `current_code_verifier` are cleared
exactly on a successful exchange; on any failed attempt (state error,
PKCE error, transport failure, empty response) the engine state is left
unchanged — in both execution modes. -/
theorem c2_amended_clear_on_success (c : OAuth2Client) (code : String)
    (st : Option String) (vs : Bool) (net : Option Dict) (now : Int) :
    (c.exchange_code code st vs net now).client =
      (if isOkE (c.exchange_code code st vs net now).result then
        { c with state := none, code_verifier := none }
      else c) ∧
    (c.exchange_code_async code st vs net now).client =
      (if isOkE (c.exchange_code_async code st vs net now).result then
        { c with state := none, code_verifier := none }
      else c) := by
  constructor <;>
    · simp only [OAuth2Client.exchange_code, OAuth2Client.exchange_code_async,
        finishSyncExchange, finishAsyncExchange]
      repeat' split
      all_goals (first | rfl | simp_all [isOkE])

/-- C3 counterexample: in the non-blocking engine a transport failure /
absent body fails with `TokenError` ("Provider returned empty token
response"), not `AuthorizationError`. -/
theorem c3_counterexample :
    (OAuth2Client.exchange_code_async
      { provider := { kind := .discord, client_id := "id" }
        client_id := "id", state := some "s" }
      "code" (some "s") true none 0).result =
      .error ⟨.token, "Provider returned empty token response"⟩ ∧
    ErrKind.token ≠ ErrKind.authorization := by
  exact ⟨rfl, by decide⟩

/-- C3 amended: once state validation passes and the network call is
reached, a transport failure or empty/absent body fails with
`AuthorizationError` in the blocking engine (the provider's `OAuthError`
is re-wrapped) but with `TokenError` in the non-blocking engine (whose
transport returns an absent result that trips the empty-response check);
a missing PKCE verifier keeps `AuthorizationError` with its specific
message and state problems keep `InvalidStateError`, in both modes. -/
theorem c3_amended_error_kinds (c : OAuth2Client) (code : String)
    (st : Option String) (vs : Bool) (net : Option Dict) (now : Int) :
    (validateStateCheck c st vs = none →
      (c.use_pkce && c.provider.hasPkceExchange &&
        optFalsy c.code_verifier) = false →
      dictTruthy net = false →
      errKindOf (c.exchange_code code st vs net now).result =
        some .authorization ∧
      (c.exchange_code_async code st vs net now).result =
        .error ⟨.token, "Provider returned empty token response"⟩) ∧
    (validateStateCheck c st vs = none →
      (c.use_pkce && c.provider.hasPkceExchange &&
        optFalsy c.code_verifier) = true →
      (c.exchange_code code st vs net now).result =
        .error ⟨.authorization,
          "PKCE enabled but no code verifier available"⟩ ∧
      (c.exchange_code_async code st vs net now).result =
        .error ⟨.authorization,
          "PKCE enabled but no code verifier available"⟩) ∧
    ((validateStateCheck c st vs).isSome = true →
      errKindOf (c.exchange_code code st vs net now).result =
        some .invalidState ∧
      errKindOf (c.exchange_code_async code st vs net now).result =
        some .invalidState) := by
  refine ⟨?_, ?_, ?_⟩
  · intro hv hb hn
    have hfin : ∀ r : ExchangeResult,
        r = finishSyncExchange c net now →
        errKindOf r.result = some .authorization := by
      intro r hr
      subst hr
      unfold finishSyncExchange
      cases net with
      | none => rfl
      | some d =>
        have hd : d.isEmpty = true := by
          simpa [dictTruthy] using hn
        simp [hd, errKindOf]
    have hfina : (finishAsyncExchange c net now).result =
        .error ⟨.token, "Provider returned empty token response"⟩ := by
      unfold finishAsyncExchange
      cases net with
      | none => rfl
      | some d =>
        have hd : d.isEmpty = true := by
          simpa [dictTruthy] using hn
        simp [hd]
    constructor
    · simp only [OAuth2Client.exchange_code, hv]
      by_cases hp : (c.use_pkce && c.provider.hasPkceExchange) = true
      · have hcv : optFalsy c.code_verifier = false := by
          rw [hp] at hb
          simpa using hb
        simp [hp, hcv]
        exact hfin _ rfl
      · simp [hp]
        exact hfin _ rfl
    · simp only [OAuth2Client.exchange_code_async, hv]
      by_cases hp : (c.use_pkce && c.provider.hasPkceExchange) = true
      · have hcv : optFalsy c.code_verifier = false := by
          rw [hp] at hb
          simpa using hb
        simp [hp, hcv]
        exact hfina
      · simp [hp]
        exact hfina
  · intro hv hb
    have hp : (c.use_pkce && c.provider.hasPkceExchange) = true := by
      cases hpb : (c.use_pkce && c.provider.hasPkceExchange)
      · rw [hpb] at hb
        simp at hb
      · rfl
    have hcv : optFalsy c.code_verifier = true := by
      rw [hp] at hb
      simpa using hb
    constructor
    · simp [OAuth2Client.exchange_code, hv, hp, hcv]
    · simp [OAuth2Client.exchange_code_async, hv, hp, hcv]
  · intro hv
    obtain ⟨e, he⟩ := Option.isSome_iff_exists.mp hv
    have hk : e.kind = .invalidState := by
      unfold validateStateCheck at he
      by_cases hg : (vs && strTruthy st) = true
      · rw [if_pos hg] at he
        by_cases hf : optFalsy c.state = true
        · rw [if_pos hf] at he
          cases he
          rfl
        · rw [if_neg hf] at he
          by_cases hq : st = c.state
          · rw [if_pos hq] at he
            cases he
          · rw [if_neg hq] at he
            cases he
            rfl
      · rw [if_neg hg] at he
        cases he
    constructor
    · simp [OAuth2Client.exchange_code, he, errKindOf, hk]
    · simp [OAuth2Client.exchange_code_async, he, errKindOf, hk]

/-- Witness for C3 amended: a standard (non-PKCE) exchange that passes
validation and meets a transport failure yields `AuthorizationError` in
the blocking mode and `TokenError` in the non-blocking mode. -/
theorem c3_amended_error_kinds_witness :
    errKindOf
      (OAuth2Client.exchange_code
        { provider := { kind := .discord, client_id := "id" }
          client_id := "id", state := some "s" }
        "code" (some "s") true none 0).result = some .authorization ∧
    (OAuth2Client.exchange_code_async
        { provider := { kind := .discord, client_id := "id" }
          client_id := "id", state := some "s" }
        "code" (some "s") true none 0).result =
      .error ⟨.token, "Provider returned empty token response"⟩ :=
  (c3_amended_error_kinds
    { provider := { kind := .discord, client_id := "id" }
      client_id := "id", state := some "s" }
    "code" (some "s") true none 0).1 rfl rfl rfl

/-- C4 counterexample: the Apple provider has a revocation endpoint and
its revoke call issues the request (the claim says Apple lacks revocation
and performs no request), and LinkedIn's unsupported revoke fails with the
`TokenError` kind itself, not a distinct kind. -/
theorem c4_counterexample :
    ((OAuth2Client.revoke_token
      { provider :=
          { kind := .apple, client_id := "id", client_secret := some "sec" }
        client_id := "id" }
      "tok" (some [("ok", .pstr "1")])).request).isSome = true ∧
    (OAuth2Client.revoke_token
      { provider :=
          { kind := .apple, client_id := "id", client_secret := some "sec" }
        client_id := "id" }
      "tok" (some [("ok", .pstr "1")])).result = .ok true ∧
    (OAuth2Client.revoke_token
      { provider := { kind := .linkedin, client_id := "id" }
        client_id := "id" }
      "tok" (some [("ok", .pstr "1")])).result =
      .error ⟨.token, "LinkedInProvider does not support token revocation"⟩ := by
  exact ⟨rfl, rfl, rfl⟩

/-- C4 amended: among the modelled providers LinkedIn (not Apple) lacks
the revoke operation; revoking through a provider without one fails with
`TokenError` carrying a "does not support token revocation" message — the
engine has no separate `UnsupportedOperationError` kind — and performs no
request, while providers with a revoke operation (Apple, Discord) issue
the provider-shaped revoke request, succeeding whenever the transport
returns a response. -/
theorem c4_amended_revocation (c : OAuth2Client) (tok : String)
    (net : Option Dict) :
    (c.provider.revoke_request tok = none →
      (c.revoke_token tok net).result =
        .error ⟨.token,
          c.provider.className ++ " does not support token revocation"⟩ ∧
      (c.revoke_token tok net).request = none) ∧
    ((c.provider.revoke_request tok).isSome = true →
      (c.revoke_token tok net).request = c.provider.revoke_request tok ∧
      (net.isSome = true → (c.revoke_token tok net).result = .ok true) ∧
      (net = none → (c.revoke_token tok net).result =
        .error ⟨.token, "Failed to revoke token: Failed to revoke token"⟩)) ∧
    ({ c.provider with kind := ProviderKind.linkedin }.revoke_request tok =
      none) ∧
    (({ c.provider with kind := ProviderKind.apple }.revoke_request
      tok).isSome = true) := by
  refine ⟨?_, ?_, rfl, rfl⟩
  · intro h
    constructor <;> simp [OAuth2Client.revoke_token, h]
  · intro h
    obtain ⟨req, hreq⟩ := Option.isSome_iff_exists.mp h
    refine ⟨?_, ?_, ?_⟩
    · cases net <;> simp [OAuth2Client.revoke_token, hreq]
    · intro hn
      obtain ⟨d, hd⟩ := Option.isSome_iff_exists.mp hn
      simp [OAuth2Client.revoke_token, hreq, hd]
    · intro hn
      simp [OAuth2Client.revoke_token, hreq, hn]

/-- Witness for C4 amended: LinkedIn refuses with `TokenError` and no
request; Apple (revoke method present) succeeds on a response. -/
theorem c4_amended_revocation_witness :
    ((OAuth2Client.revoke_token
      { provider := { kind := .linkedin, client_id := "id" }
        client_id := "id" }
      "tok" none).result =
      .error ⟨.token,
        "LinkedInProvider does not support token revocation"⟩ ∧
    (OAuth2Client.revoke_token
      { provider := { kind := .linkedin, client_id := "id" }
        client_id := "id" }
      "tok" none).request = none) ∧
    (OAuth2Client.revoke_token
      { provider := { kind := .apple, client_id := "id" }
        client_id := "id" }
      "tok" (some [])).result = .ok true := by
  refine ⟨?_, ?_⟩
  · exact (c4_amended_revocation
      { provider := { kind := .linkedin, client_id := "id" }
        client_id := "id" } "tok" none).1 rfl
  · exact ((c4_amended_revocation
      { provider := { kind := .apple, client_id := "id" }
        client_id := "id" } "tok" (some [])).2.1 rfl).2.1 rfl

/-- C6: with `use_pkce=true` and no stored code verifier (no prior
`beginAuthorization`), an exchange invocation whose state check is not
triggered (no truthy state argument, or validation off — the scenario of
a flow that was never begun) fails with `AuthorizationError`
"PKCE enabled but no code verifier available" before any network call,
in both modes; the PKCE exchange function is inherited from the provider
base class, so this holds for every provider. -/
theorem c6_pkce_missing_verifier (c : OAuth2Client) (code : String)
    (st : Option String) (vs : Bool) (net : Option Dict) (now : Int)
    (hp : c.use_pkce = true) (hv : c.code_verifier = none)
    (hs : vs = false ∨ strTruthy st = false) :
    (c.exchange_code code st vs net now).result =
      .error ⟨.authorization,
        "PKCE enabled but no code verifier available"⟩ ∧
    (c.exchange_code code st vs net now).network_called = false ∧
    (c.exchange_code_async code st vs net now).result =
      .error ⟨.authorization,
        "PKCE enabled but no code verifier available"⟩ ∧
    (c.exchange_code_async code st vs net now).network_called = false ∧
    c.provider.hasPkceExchange = true := by
  have hvsc : validateStateCheck c st vs = none := by
    unfold validateStateCheck
    rcases hs with h | h <;> simp [h]
  have hg : (c.use_pkce && c.provider.hasPkceExchange) = true := by
    simp [hp, ProviderInst.hasPkceExchange]
  have hcv : optFalsy c.code_verifier = true := by
    simp [hv, optFalsy]
  refine ⟨?_, ?_, ?_, ?_, rfl⟩ <;>
    simp [OAuth2Client.exchange_code, OAuth2Client.exchange_code_async,
      hvsc, hg, hcv]

/-- Witness for C6: a PKCE-enabled Microsoft client with no stored
verifier fails in both modes with the specific error, without a network
call. -/
theorem c6_pkce_missing_verifier_witness :
    (OAuth2Client.exchange_code
      { provider := { kind := .microsoft, client_id := "id" }
        client_id := "id", use_pkce := true }
      "code" none true none 0).result =
      .error ⟨.authorization,
        "PKCE enabled but no code verifier available"⟩ ∧
    (OAuth2Client.exchange_code
      { provider := { kind := .microsoft, client_id := "id" }
        client_id := "id", use_pkce := true }
      "code" none true none 0).network_called = false ∧
    (OAuth2Client.exchange_code_async
      { provider := { kind := .microsoft, client_id := "id" }
        client_id := "id", use_pkce := true }
      "code" none true none 0).result =
      .error ⟨.authorization,
        "PKCE enabled but no code verifier available"⟩ ∧
    (OAuth2Client.exchange_code_async
      { provider := { kind := .microsoft, client_id := "id" }
        client_id := "id", use_pkce := true }
      "code" none true none 0).network_called = false ∧
    ProviderInst.hasPkceExchange
      { kind := .microsoft, client_id := "id" } = true :=
  c6_pkce_missing_verifier
    { provider := { kind := .microsoft, client_id := "id" }
      client_id := "id", use_pkce := true }
    "code" none true none 0 rfl rfl (Or.inr rfl)

/-- Helper: the support check for identity fetch agrees extensionally
between the two modes on the modelled providers (`get_user_info` method
present iff `user_info_endpoint` attribute present). -/
theorem userinfo_support_agree (p : ProviderInst) :
    p.hasGetUserInfoMethod = (p.user_info_endpoint).isSome := by
  obtain ⟨k, cid, sec, ruri, sc, tn⟩ := p
  cases k <;> rfl

/-- Helper: both modes issue the same identity-fetch request (same method,
URL and Bearer header), or both issue none. -/
theorem userinfo_request_agree (c : OAuth2Client) (atok : String)
    (net : Option Dict) :
    (c.get_user_info atok net).request =
      (c.get_user_info_async atok net).request := by
  obtain ⟨p, cid, sec, ruri, sc, pk, cv, stt⟩ := c
  obtain ⟨k, pcid, psec, pruri, pscopes, ptn⟩ := p
  cases k <;> cases net with
  | none => rfl
  | some d =>
      by_cases hd : d.isEmpty <;>
        simp [OAuth2Client.get_user_info, OAuth2Client.get_user_info_async,
          dictTruthy, hd, ProviderInst.hasGetUserInfoMethod,
          ProviderInst.user_info_endpoint]

/-- C8 counterexample: for the Microsoft provider the blocking revoke
refuses (no `revoke_token` method) with `TokenError` and no request,
while the non-blocking revoke (endpoint attribute present) issues the
request and returns `True`; and for Apple the two modes send different
revoke request bodies.  The modes therefore do not make the same
decisions nor send the same revoke request. -/
theorem c8_counterexample :
    (OAuth2Client.revoke_token
      { provider := { kind := .microsoft, client_id := "id" }
        client_id := "id" }
      "t" (some [("ok", .pstr "1")])).request = none ∧
    errKindOf (OAuth2Client.revoke_token
      { provider := { kind := .microsoft, client_id := "id" }
        client_id := "id" }
      "t" (some [("ok", .pstr "1")])).result = some .token ∧
    ((OAuth2Client.revoke_token_async
      { provider := { kind := .microsoft, client_id := "id" }
        client_id := "id" }
      "t" (some [("ok", .pstr "1")])).request).isSome = true ∧
    (OAuth2Client.revoke_token_async
      { provider := { kind := .microsoft, client_id := "id" }
        client_id := "id" }
      "t" (some [("ok", .pstr "1")])).result = .ok true ∧
    (OAuth2Client.revoke_token
      { provider :=
          { kind := .apple, client_id := "id", client_secret := some "sec" }
        client_id := "id" }
      "t" (some [("ok", .pstr "1")])).request ≠
    (OAuth2Client.revoke_token_async
      { provider :=
          { kind := .apple, client_id := "id", client_secret := some "sec" }
        client_id := "id" }
      "t" (some [("ok", .pstr "1")])).request := by
  refine ⟨rfl, rfl, rfl, rfl, ?_⟩
  decide

/-- C8 amended: the two execution modes share the exchange decision logic
(state validation and PKCE gating give identical results with no network
call in both modes), and the identity fetch agrees on support and on the
request; but revoke is not shared: the support checks differ (provider
method presence vs `revocation_endpoint` presence — Microsoft has the
endpoint but no method, so the blocking mode refuses with `TokenError`
while the non-blocking mode issues a bare `{token}` request and returns
`True`). -/
theorem c8_amended_mode_comparison (c : OAuth2Client) (code tok atok : String)
    (st : Option String) (vs : Bool) (net : Option Dict) (now : Int) :
    ((validateStateCheck c st vs).isSome = true →
      (c.exchange_code code st vs net now).result =
        (c.exchange_code_async code st vs net now).result ∧
      (c.exchange_code code st vs net now).network_called = false ∧
      (c.exchange_code_async code st vs net now).network_called = false) ∧
    (validateStateCheck c st vs = none →
      (c.use_pkce && c.provider.hasPkceExchange &&
        optFalsy c.code_verifier) = true →
      (c.exchange_code code st vs net now).result =
        (c.exchange_code_async code st vs net now).result ∧
      (c.exchange_code code st vs net now).network_called = false ∧
      (c.exchange_code_async code st vs net now).network_called = false) ∧
    (c.provider.hasGetUserInfoMethod =
      (c.provider.user_info_endpoint).isSome) ∧
    ((c.get_user_info atok net).request =
      (c.get_user_info_async atok net).request) ∧
    ({ c.provider with kind := ProviderKind.microsoft }.revoke_request tok =
      none) ∧
    (({ c.provider with
        kind := ProviderKind.microsoft }.revocation_endpoint).isSome =
      true) ∧
    (net.isSome = true →
      errKindOf ({ c with provider :=
          { c.provider with kind := ProviderKind.microsoft } }.revoke_token
          tok net).result = some .token ∧
      ({ c with provider :=
          { c.provider with kind := ProviderKind.microsoft } }.revoke_token_async
          tok net).result = .ok true) := by
  refine ⟨?_, ?_, userinfo_support_agree c.provider,
    userinfo_request_agree c atok net, rfl, rfl, ?_⟩
  · intro hv
    obtain ⟨e, he⟩ := Option.isSome_iff_exists.mp hv
    refine ⟨?_, ?_, ?_⟩ <;>
      simp [OAuth2Client.exchange_code, OAuth2Client.exchange_code_async, he]
  · intro hv hb
    have hp : (c.use_pkce && c.provider.hasPkceExchange) = true := by
      cases hpb : (c.use_pkce && c.provider.hasPkceExchange)
      · rw [hpb] at hb
        simp at hb
      · rfl
    have hcv : optFalsy c.code_verifier = true := by
      rw [hp] at hb
      simpa using hb
    refine ⟨?_, ?_, ?_⟩ <;>
      simp [OAuth2Client.exchange_code, OAuth2Client.exchange_code_async,
        hv, hp, hcv]
  · intro hn
    obtain ⟨d, hd⟩ := Option.isSome_iff_exists.mp hn
    rw [hd]
    exact ⟨rfl, rfl⟩

/-- Witness for C8 amended: on a concrete Microsoft client with a
response available, identity requests agree between modes while the
blocking revoke refuses with `TokenError` and the non-blocking revoke
returns `True`. -/
theorem c8_amended_mode_comparison_witness :
    ((OAuth2Client.get_user_info
      { provider := { kind := .microsoft, client_id := "id" }
        client_id := "id" }
      "atok" (some [("id", .pstr "u")])).request =
      (OAuth2Client.get_user_info_async
        { provider := { kind := .microsoft, client_id := "id" }
          client_id := "id" }
        "atok" (some [("id", .pstr "u")])).request) ∧
    (errKindOf (OAuth2Client.revoke_token
      { provider :=
          { kind := ProviderKind.microsoft, client_id := "id" }
        client_id := "id" }
      "tok" (some [("id", .pstr "u")])).result = some .token ∧
    (OAuth2Client.revoke_token_async
      { provider :=
          { kind := ProviderKind.microsoft, client_id := "id" }
        client_id := "id" }
      "tok" (some [("id", .pstr "u")])).result = .ok true) := by
  have h := c8_amended_mode_comparison
    { provider := { kind := ProviderKind.microsoft, client_id := "id" }
      client_id := "id" }
    "code" "tok" "atok" none true (some [("id", .pstr "u")]) 0
  exact ⟨h.2.2.2.1, h.2.2.2.2.2.2 rfl⟩

/-- Helper: effect of one `get_authorization_url` call on the provider's
scope configuration and on the URL's scope parameter. -/
theorem gau_effect (c : OAuth2Client) (scope : Option (List String))
    (st : Option String) (extra : List (String × String)) (f1 f2 : String) :
    ((c.get_authorization_url scope st extra f1 f2).2).provider.scopes =
      (if listTruthy scope then scope.getD [] else c.provider.scopes) ∧
    ((c.get_authorization_url scope st extra f1 f2).2).use_pkce =
      c.use_pkce ∧
    paramGet ((c.get_authorization_url scope st extra f1 f2).1) "scope" =
      some (String.intercalate " "
        (if listTruthy scope then scope.getD [] else c.provider.scopes)) := by
  obtain ⟨p, cid, sec, ruri, scps, pk, cv, stt⟩ := c
  cases hb1 : listTruthy scope <;> cases hb2 : strTruthy st <;>
    cases pk <;>
    · simp only [OAuth2Client.get_authorization_url, hb1, hb2]
      exact ⟨rfl, rfl, rfl⟩

/-- C10: a `get_authorization_url` call with a non-empty scope list
overwrites the provider's scope configuration; a subsequent call that
supplies no scope still uses the last explicitly supplied list (for any
scopes configured at construction), both in the engine state and in the
URL's scope parameter. -/
theorem c10_scope_overwrite (c : OAuth2Client) (l : List String)
    (st1 st2 : Option String) (extra : List (String × String))
    (f1 f2 f3 f4 : String) (hl : l ≠ []) :
    ((c.get_authorization_url (some l) st1 extra f1 f2).2).provider.scopes =
      l ∧
    ((((c.get_authorization_url (some l) st1 extra f1 f2).2).get_authorization_url
        none st2 extra f3 f4).2).provider.scopes = l ∧
    paramGet
      ((((c.get_authorization_url (some l) st1 extra f1 f2).2).get_authorization_url
        none st2 extra f3 f4).1) "scope" =
      some (String.intercalate " " l) := by
  have hlt : listTruthy (some l) = true := by
    cases l with
    | nil => exact absurd rfl hl
    | cons x xs => rfl
  have h1 := gau_effect c (some l) st1 extra f1 f2
  have e1 : ((c.get_authorization_url (some l) st1 extra f1 f2).2).provider.scopes
      = l := by
    rw [h1.1, hlt]
    rfl
  have h2 := gau_effect ((c.get_authorization_url (some l) st1 extra f1 f2).2)
    none st2 extra f3 f4
  have e2 : ((((c.get_authorization_url (some l) st1 extra f1 f2).2).get_authorization_url
      none st2 extra f3 f4).2).provider.scopes = l := by
    rw [h2.1]
    simpa [listTruthy] using e1
  refine ⟨e1, e2, ?_⟩
  rw [h2.2.2]
  simp only [listTruthy, if_neg]
  rw [e1]
  simp

/-- Witness for C10: a Discord client constructed with scopes
`["identify", "email"]` that is asked once for `["openid"]` keeps using
`["openid"]` on a later call that supplies no scope. -/
theorem c10_scope_overwrite_witness :
    ((OAuth2Client.get_authorization_url
      { provider :=
          { kind := .discord, client_id := "id",
            scopes := ["identify", "email"] }
        client_id := "id", scopes := ["identify", "email"] }
      (some ["openid"]) none [] "s1" "v1").2).provider.scopes = ["openid"] ∧
    ((((OAuth2Client.get_authorization_url
      { provider :=
          { kind := .discord, client_id := "id",
            scopes := ["identify", "email"] }
        client_id := "id", scopes := ["identify", "email"] }
      (some ["openid"]) none [] "s1" "v1").2).get_authorization_url
        none none [] "s2" "v2").2).provider.scopes = ["openid"] ∧
    paramGet
      ((((OAuth2Client.get_authorization_url
      { provider :=
          { kind := .discord, client_id := "id",
            scopes := ["identify", "email"] }
        client_id := "id", scopes := ["identify", "email"] }
      (some ["openid"]) none [] "s1" "v1").2).get_authorization_url
        none none [] "s2" "v2").1) "scope" =
      some (String.intercalate " " ["openid"]) :=
  c10_scope_overwrite
    { provider :=
        { kind := .discord, client_id := "id",
          scopes := ["identify", "email"] }
      client_id := "id", scopes := ["identify", "email"] }
    ["openid"] none none [] "s1" "v1" "s2" "v2" (by decide)

end Pauth
